import Mathlib

/-!
Verification of the orchestration core of the LangGraph cooperative
multi-agent analysis workflow (src/src/agent/graph.py).

The Python source is shallowly embedded: each graph node function becomes a
Lean function from the workflow state to a partial update; the LangGraph
channel reducers (add_messages, add_analyses, add_completion_status,
last-write-wins for the remaining fields) become an explicit merge function
applyUpdate; the LLM agents (fundamental_agent, technical_agent, risk_agent,
senior_agent) are external collaborators and are parameters of type
String to Except String String mapping the task text sent to the agent to
either its reply content or the message of the exception it raised.
Timestamps produced by datetime.now() are likewise passed in as a parameter.
The compiled graph is embedded as a step function on (active node, state)
configurations following the superstep wiring in build_multi_agent_graph.
-/

set_option maxHeartbeats 1000000
set_option maxRecDepth 100000

namespace MultiAgent

/-- Messages in the transcript: LangGraph keeps the initial HumanMessage and
the AIMessage items appended by the nodes. -/
inductive Message where
  | human (content : String)
  | ai (content : String)
  deriving DecidableEq, Repr

/-- The .content accessor shared by HumanMessage and AIMessage. -/
def Message.content : Message → String
  | .human c => c
  | .ai c => c

/-- Embedding of the pydantic model AgentFeedback (graph.py lines 41-47).
The float confidence_score is modelled as a rational number. -/
structure AgentFeedback where
  agent_name : String
  feedback_type : String
  feedback_content : String
  confidence_score : ℚ
  suggested_improvements : List String
  deriving DecidableEq, Repr

/-- Incoming value of the analyses channel: the reducer add_analyses accepts
either a bare string or a list of strings (the isinstance check). -/
inductive StrOrList where
  | str (s : String)
  | list (l : List String)
  deriving DecidableEq, Repr

/-- Embedding of add_analyses (graph.py lines 53-59): existing None becomes
the empty list, a bare string is wrapped into a one-element list, and the
result is the concatenation existing ++ new. -/
def add_analyses (existing : Option (List String)) (new : StrOrList) : List String :=
  let e := existing.getD []
  match new with
  | .str s => e ++ [s]
  | .list l => e ++ l

/-- Embedding of add_completion_status (graph.py lines 62-66): dict union
with the incoming keys overwriting, existing None treated as the empty
dict.  Dicts from role name to bool are modelled as functions
String to Option Bool. -/
def add_completion_status (existing : Option (String → Option Bool))
    (new : String → Option Bool) : String → Option Bool :=
  fun k =>
    match new k with
    | some v => some v
    | none => (existing.getD (fun _ => none)) k

/-- Embedding of the MultiAgentState TypedDict (graph.py lines 68-78).
Fields declared Optional in the source are Option types; none means the
channel has never been written. -/
structure MState where
  messages : List Message
  original_query : Option String
  analyses : List String
  agent_feedbacks : Option (List AgentFeedback)
  revision_count : Option Nat
  consensus_reached : Option Bool
  final_report : Option String
  workflow_stage : Option String
  completion_status : String → Option Bool

/-- A partial state update returned by one node.  A field holding none (or
the empty list for the reducer-merged messages channel) was not written by
the node. -/
structure Update where
  messages : List Message := []
  original_query : Option String := none
  analyses : Option (List String) := none
  agent_feedbacks : Option (List AgentFeedback) := none
  revision_count : Option Nat := none
  consensus_reached : Option Bool := none
  final_report : Option String := none
  workflow_stage : Option String := none
  completion_status : Option (String → Option Bool) := none

/-- Last-write-wins channel semantics: an incoming write replaces the stored
value, absence of a write keeps it. -/
def lww {α : Type} (new old : Option α) : Option α :=
  match new with
  | some v => some v
  | none => old

/-- The LangGraph merge of one node's partial update into the state, using
the per-field reducers declared in MultiAgentState. -/
def applyUpdate (s : MState) (u : Update) : MState where
  messages := s.messages ++ u.messages
  original_query := lww u.original_query s.original_query
  analyses :=
    match u.analyses with
    | none => s.analyses
    | some l => add_analyses (some s.analyses) (.list l)
  agent_feedbacks := lww u.agent_feedbacks s.agent_feedbacks
  revision_count := lww u.revision_count s.revision_count
  consensus_reached := lww u.consensus_reached s.consensus_reached
  final_report := lww u.final_report s.final_report
  workflow_stage := lww u.workflow_stage s.workflow_stage
  completion_status :=
    match u.completion_status with
    | none => s.completion_status
    | some m => add_completion_status (some s.completion_status) m

/-- The separator "=" * 60. -/
def sep60 : String := String.mk (List.replicate 60 '=')

/-- The separator "=" * 80. -/
def sep80 : String := String.mk (List.replicate 80 '=')

/-- Embedding of format_analysis_output (graph.py lines 302-318); the
datetime.now() timestamp is the parameter now. -/
def format_analysis_output (now title content agent_name : String) : String :=
  "\n" ++ sep60 ++ "\n📊 " ++ title ++ "\n👨‍💼 分析师：" ++ agent_name ++
    "\n⏰ 分析时间：" ++ now ++ "\n" ++ sep60 ++ "\n\n" ++ content ++
    "\n\n" ++ sep60 ++ "\n"

/-- The enumerated review lines of format_review_output, starting at index i
(the source enumerates from 1). -/
def reviewLines : Nat → List String → String
  | _, [] => ""
  | i, r :: rs => "📝 评议 " ++ toString i ++ ":\n" ++ r ++ "\n\n" ++ reviewLines (i + 1) rs

/-- Embedding of format_review_output (graph.py lines 320-337). -/
def format_review_output (now : String) (reviews : List String) : String :=
  "\n" ++ sep60 ++ "\n🔍 同行评议阶段\n⏰ 评议时间：" ++ now ++ "\n" ++ sep60 ++
    "\n\n" ++ reviewLines 1 reviews ++ sep60 ++ "\n"

/-- Embedding of format_final_report (graph.py lines 339-357). -/
def format_final_report (now content : String) : String :=
  "\n" ++ sep80 ++ "\n🎯 最终综合投资分析报告\n📈 多Agent协作完成\n⏰ 报告时间：" ++ now ++
    "\n" ++ sep80 ++ "\n\n" ++ content ++ "\n\n" ++ sep80 ++
    "\n✅ 报告完成 - 基于多专家协作与同行评议\n" ++ sep80 ++ "\n"

/-- Embedding of coordinator_node (graph.py lines 361-383).  The truthiness
test on state.get("original_query") treats both an absent key and the empty
string as falsy; the elif falls back to the first transcript message. -/
def coordinator_node (now : String) (s : MState) : Update :=
  let user_query :=
    if s.original_query.getD "" ≠ "" then s.original_query.getD ""
    else
      match s.messages with
      | [] => ""
      | m :: _ => m.content
  { messages := [.ai (format_analysis_output now "多Agent协作分析启动"
      ("任务内容：" ++ user_query ++ "\n正在调度基本面分析师、技术分析师、风险分析师进行并行分析...")
      "系统协调器")],
    original_query := some user_query,
    workflow_stage := some "coordination_started",
    completion_status := some (fun _ => none) }

/-- The query resolution shared by the three executor nodes
(graph.py lines 388-390): query = state.get("original_query", "");
if not query and state.get("messages"): query = state["messages"][0].content. -/
def get_node_query (s : MState) : String :=
  let query := s.original_query.getD ""
  if query = "" then
    match s.messages with
    | [] => query
    | m :: _ => m.content
  else query

/-- A dict literal writing one role key, as returned by the executor nodes
for the completion_status channel. -/
def singleFlag (role : String) (b : Bool) : String → Option Bool :=
  fun k => if k = role then some b else none

/-- The shared body of the three executor nodes (graph.py lines 385-509):
resolve the query, invoke the role's agent with a role-specific task, and on
success return the tagged analysis plus completionFlag true, on an exception
return the failure-tagged analysis plus completionFlag false. -/
def analysis_node_core (now taskHead title agentName tag roleKey : String)
    (agent : String → Except String String) (s : MState) : Update :=
  let query := get_node_query s
  let task := taskHead ++ query
  match agent task with
  | .ok analysis_content =>
      { messages := [.ai (format_analysis_output now title analysis_content agentName)],
        analyses := some [tag ++ ": " ++ analysis_content],
        completion_status := some (singleFlag roleKey true) }
  | .error e =>
      { messages := [.ai (format_analysis_output now title ("分析过程中出现错误: " ++ e) agentName)],
        analyses := some [tag ++ ": 分析失败 - " ++ e],
        completion_status := some (singleFlag roleKey false) }

/-- Embedding of fundamental_analysis_node (graph.py lines 385-425). -/
def fundamental_analysis_node (now : String) (agent : String → Except String String)
    (s : MState) : Update :=
  analysis_node_core now "请对以下投资标的进行深入的基本面分析: " "基本面分析报告"
    "基本面分析专家" "基本面分析" "fundamental" agent s

/-- Embedding of technical_analysis_node (graph.py lines 427-467). -/
def technical_analysis_node (now : String) (agent : String → Except String String)
    (s : MState) : Update :=
  analysis_node_core now "请对以下投资标的进行专业的技术面分析: " "技术分析报告"
    "技术分析专家" "技术分析" "technical" agent s

/-- Embedding of risk_analysis_node (graph.py lines 469-509). -/
def risk_analysis_node (now : String) (agent : String → Except String String)
    (s : MState) : Update :=
  analysis_node_core now "请对以下投资标的进行全面的风险评估: " "风险评估报告"
    "风险管理专家" "风险分析" "risk" agent s

/-- Embedding of wait_for_analyses_node (graph.py lines 511-532): reads the
three role flags with default False and branches on all of them. -/
def wait_for_analyses_node (s : MState) : Update :=
  let cs := s.completion_status
  if (cs "fundamental").getD false ∧ (cs "technical").getD false ∧ (cs "risk").getD false then
    { workflow_stage := some "all_analyses_completed",
      messages := [.ai "📝 所有专业分析已完成，正在准备同行评议..."] }
  else
    { workflow_stage := some "waiting_for_analyses" }

/-- The review task sent to the fundamental agent by peer_review_node
(graph.py lines 556-570). -/
def fundamental_review_task (combined_analysis : String) : String :=
  "\n    作为基本面分析专家，请评审以下技术分析和风险分析的质量：\n    \n    " ++
    combined_analysis ++
    "\n    \n    请重点关注：\n    1. 分析逻辑是否合理\n    2. 是否与基本面分析结果一致\n    3. 有哪些遗漏或错误\n    4. 提出具体改进建议\n    \n    格式：【基本面分析师评审】\n    评审意见：...\n    改进建议：...\n    "

/-- The review task sent to the technical agent by peer_review_node
(graph.py lines 582-596). -/
def technical_review_task (combined_analysis : String) : String :=
  "\n    作为技术分析专家，请评审以下基本面分析和风险分析的质量：\n    \n    " ++
    combined_analysis ++
    "\n    \n    请重点关注：\n    1. 分析是否结合了市场技术面情况\n    2. 时机判断是否合理\n    3. 价格目标是否符合技术面支撑\n    4. 提出具体改进建议\n    \n    格式：【技术分析师评审】\n    评审意见：...\n    改进建议：...\n    "

/-- The review task sent to the risk agent by peer_review_node
(graph.py lines 608-622). -/
def risk_review_task (combined_analysis : String) : String :=
  "\n    作为风险管理专家，请评审以下基本面分析和技术分析的质量：\n    \n    " ++
    combined_analysis ++
    "\n    \n    请重点关注：\n    1. 风险因素是否被充分识别\n    2. 风险评估是否客观准确\n    3. 风险控制建议是否实用\n    4. 提出具体改进建议\n    \n    格式：【风险分析师评审】\n    评审意见：...\n    改进建议：...\n    "

/-- The feedback entry appended for the fundamental reviewer: the reply on
success, the fixed placeholder when the invocation raised
(graph.py lines 572-579). -/
def fundamental_review_text (fa : String → Except String String)
    (combined_analysis : String) : String :=
  match fa (fundamental_review_task combined_analysis) with
  | .ok c => "【基本面分析师评审】\n" ++ c
  | .error _ => "【基本面分析师评审】评审过程中出现错误"

/-- The feedback entry appended for the technical reviewer
(graph.py lines 598-605). -/
def technical_review_text (ta : String → Except String String)
    (combined_analysis : String) : String :=
  match ta (technical_review_task combined_analysis) with
  | .ok c => "【技术分析师评审】\n" ++ c
  | .error _ => "【技术分析师评审】评审过程中出现错误"

/-- The feedback entry appended for the risk reviewer
(graph.py lines 624-631). -/
def risk_review_text (ra : String → Except String String)
    (combined_analysis : String) : String :=
  match ra (risk_review_task combined_analysis) with
  | .ok c => "【风险分析师评审】\n" ++ c
  | .error _ => "【风险分析师评审】评审过程中出现错误"

/-- Embedding of peer_review_node (graph.py lines 534-649).  The first
component is the partial state update; the second component is the list of
task texts actually sent to the Analyst capability, so the number of agent
invocations performed on each control path is observable (the empty-log
short circuit returns before any invoke call; the other path executes
exactly the three try-blocks, one invoke each). -/
def peer_review_node (now : String) (fa ta ra : String → Except String String)
    (s : MState) : Update × List String :=
  let analyses := s.analyses
  let combined_analysis := String.intercalate "\n\n" analyses
  if combined_analysis = "" then
    ({ messages := [.ai "【同行评议】没有分析结果可供评议"],
       workflow_stage := some "peer_review_completed" }, [])
  else
    let feedbacks := [fundamental_review_text fa combined_analysis,
                      technical_review_text ta combined_analysis,
                      risk_review_text ra combined_analysis]
    let formatted_feedback := format_review_output now feedbacks
    ({ messages := [.ai formatted_feedback],
       agent_feedbacks := some [{
         agent_name := "peer_review",
         feedback_type := "critique",
         feedback_content := formatted_feedback,
         confidence_score := (0.8 : ℚ),
         suggested_improvements := ["基于评议结果优化分析"] }],
       workflow_stage := some "peer_review_completed" },
     [fundamental_review_task combined_analysis,
      technical_review_task combined_analysis,
      risk_review_task combined_analysis])

/-- The AIMessage contents of the transcript, as collected by
senior_synthesis_node's isinstance(msg, AIMessage) filter. -/
def aiContents (ms : List Message) : List String :=
  ms.filterMap (fun m => match m with | .ai c => some c | .human _ => none)

/-- The synthesis task sent to the senior agent (graph.py lines 664-683). -/
def synthesis_task (combined_content : String) : String :=
  "\n    作为资深投资总监，请基于以下专业分析师的工作成果和同行评议结果，\n    形成最终的综合投资分析报告：\n    \n    " ++
    combined_content ++
    "\n    \n    请提供：\n    1. 📋 执行摘要\n    2. 🎯 综合投资建议\n    3. ⚠️ 关键风险提示\n    4. 📊 投资评级和目标价位\n    5. 🔍 各专业分析的整合和质量评估\n    \n    要求：\n    - 逻辑清晰，结论明确\n    - 充分考虑各方意见\n    - 识别并解决分析中的矛盾\n    - 提供实用的投资指导\n    - 格式美观，条理清晰\n    "

/-- Embedding of senior_synthesis_node (graph.py lines 651-708): both the
success branch and the exception branch write final_report and set
consensus_reached to true. -/
def senior_synthesis_node (now : String) (senior : String → Except String String)
    (s : MState) : Update :=
  let combined_content := String.intercalate "\n\n" (aiContents s.messages)
  match senior (synthesis_task combined_content) with
  | .ok final_report_content =>
      { messages := [.ai (format_final_report now final_report_content)],
        final_report := some final_report_content,
        consensus_reached := some true,
        workflow_stage := some "synthesis_completed" }
  | .error e =>
      { messages := [.ai (format_final_report now ("综合分析过程中出现错误: " ++ e))],
        final_report := some ("综合分析失败: " ++ e),
        consensus_reached := some true,
        workflow_stage := some "synthesis_failed" }

/-- Embedding of consensus_check_node (graph.py lines 710-737):
revision_count read with default 0; below the cap of 2 the report length is
compared with 500, otherwise consensus is forced. -/
def consensus_check_node (s : MState) : Update :=
  let revision_count := s.revision_count.getD 0
  if revision_count < 2 then
    let final_report := s.final_report.getD ""
    if final_report.length > 500 then
      { consensus_reached := some true,
        revision_count := some revision_count,
        workflow_stage := some "consensus_checked" }
    else
      { consensus_reached := some false,
        revision_count := some (revision_count + 1),
        workflow_stage := some "consensus_checked" }
  else
    { consensus_reached := some true,
      revision_count := some revision_count,
      workflow_stage := some "consensus_checked" }

/-- The langgraph END sentinel. -/
def END : String := "__end__"

/-- Embedding of check_consensus_routing (graph.py lines 741-748). -/
def check_consensus_routing (s : MState) : String :=
  if s.consensus_reached.getD false then END else "peer_review"

/-- Embedding of check_analyses_completion (graph.py lines 750-769). -/
def check_analyses_completion (s : MState) : String :=
  let cs := s.completion_status
  if (cs "fundamental").getD false ∧ (cs "technical").getD false ∧ (cs "risk").getD false then
    "peer_review"
  else
    "wait_for_analyses"

/-- The nodes of the compiled graph of build_multi_agent_graph
(graph.py lines 773-827); the three parallel executor nodes form one
superstep (fanout), and terminal is the END state. -/
inductive GNode where
  | coordinator
  | fanout
  | waitNode
  | peerReview
  | synthesis
  | consensus
  | terminal
  deriving DecidableEq, Repr

/-- The external collaborators of one workflow run: a timestamp source
(kept constant for simplicity of the embedding; no claim depends on it),
the three executor agents, and per-superstep behaviours of the three
reviewer invocations and the senior agent for the revision loop. -/
structure Env where
  now : String
  fund : String → Except String String
  tech : String → Except String String
  risk : String → Except String String
  fundReview : Nat → String → Except String String
  techReview : Nat → String → Except String String
  riskReview : Nat → String → Except String String
  senior : Nat → String → Except String String

/-- A configuration of the running graph: the active node and the current
shared state. -/
def Config : Type := GNode × MState

/-- One superstep of the compiled graph at superstep index n: run the active
node, merge its update, and follow the (conditional) edge wired in
build_multi_agent_graph.  The three executors all read the same pre-fanout
state and their updates are merged by the channel reducers, matching the
LangGraph parallel-superstep semantics. -/
def step (env : Env) (n : Nat) : Config → Config
  | (.coordinator, s) => (.fanout, applyUpdate s (coordinator_node env.now s))
  | (.fanout, s) =>
      let u1 := fundamental_analysis_node env.now env.fund s
      let u2 := technical_analysis_node env.now env.tech s
      let u3 := risk_analysis_node env.now env.risk s
      (.waitNode, applyUpdate (applyUpdate (applyUpdate s u1) u2) u3)
  | (.waitNode, s) =>
      let s' := applyUpdate s (wait_for_analyses_node s)
      if check_analyses_completion s' = "peer_review" then (.peerReview, s')
      else (.waitNode, s')
  | (.peerReview, s) =>
      (.synthesis, applyUpdate s
        (peer_review_node env.now (env.fundReview n) (env.techReview n) (env.riskReview n) s).1)
  | (.synthesis, s) =>
      (.consensus, applyUpdate s (senior_synthesis_node env.now (env.senior n) s))
  | (.consensus, s) =>
      let s' := applyUpdate s (consensus_check_node s)
      if check_consensus_routing s' = "peer_review" then (.peerReview, s')
      else (.terminal, s')
  | (.terminal, s) => (.terminal, s)

/-- Run m supersteps starting at superstep index n. -/
def runFrom (env : Env) : Nat → Nat → Config → Config
  | _, 0, c => c
  | n, m + 1, c => runFrom env (n + 1) m (step env n c)

/-- Run n supersteps from the start of the workflow. -/
def run (env : Env) (n : Nat) (c : Config) : Config :=
  runFrom env 0 n c

/-- The state at workflow entry when the caller passes the query as a single
HumanMessage, as in the sample invocation: every Optional channel is unset
and the reducer channels are empty. -/
def initState (query : String) : MState where
  messages := [.human query]
  original_query := none
  analyses := []
  agent_feedbacks := none
  revision_count := none
  consensus_reached := none
  final_report := none
  workflow_stage := none
  completion_status := fun _ => none

/-- The initial configuration: the START edge enters the coordinator. -/
def initConfig (query : String) : Config := (.coordinator, initState query)

/-- The workflow terminates: some finite number of supersteps reaches END. -/
def terminates (env : Env) (query : String) : Prop :=
  ∃ n, (run env n (initConfig query)).1 = GNode.terminal

/-- A workflow state with the given channel contents and every other
channel unset; used to build concrete inputs in the theorems below. -/
def mkState (msgs : List Message) (oq : Option String) (analyses : List String)
    (rc : Option Nat) (fr : Option String) (cs : String → Option Bool) : MState where
  messages := msgs
  original_query := oq
  analyses := analyses
  agent_feedbacks := none
  revision_count := rc
  consensus_reached := none
  final_report := fr
  workflow_stage := none
  completion_status := cs

/-- An agent that always answers with the fixed text x. -/
def okAgent : String → Except String String := fun _ => Except.ok "x"

/-- An agent whose invocation always raises with message boom. -/
def errAgent : String → Except String String := fun _ => Except.error "boom"

/-- An environment in which the fundamental executor's agent raises and
everything else succeeds. -/
def envBug : Env where
  now := "t"
  fund := errAgent
  tech := okAgent
  risk := okAgent
  fundReview := fun _ => okAgent
  techReview := fun _ => okAgent
  riskReview := fun _ => okAgent
  senior := fun _ => okAgent

/-- An environment in which every agent invocation succeeds. -/
def envOk : Env where
  now := "t"
  fund := okAgent
  tech := okAgent
  risk := okAgent
  fundReview := fun _ => okAgent
  techReview := fun _ => okAgent
  riskReview := fun _ => okAgent
  senior := fun _ => okAgent

/-- A report text of exactly 600 characters. -/
def report600 : String := String.mk (List.replicate 600 'a')

/-- A report text of exactly 100 characters. -/
def report100 : String := String.mk (List.replicate 100 'a')

/-- The feedback record produced by peer_review_node on the one-entry
analysis log of sampleReviewState with every reviewer answering via
okAgent at timestamp t. -/
def sampleFeedback : AgentFeedback where
  agent_name := "peer_review"
  feedback_type := "critique"
  feedback_content := format_review_output "t"
    [fundamental_review_text okAgent "A1",
     technical_review_text okAgent "A1",
     risk_review_text okAgent "A1"]
  confidence_score := (0.8 : ℚ)
  suggested_improvements := ["基于评议结果优化分析"]

/-- A state whose analysis log holds the single entry A1. -/
def sampleReviewState : MState :=
  mkState [] none ["A1"] none none (fun _ => none)

/-- An environment whose senior agent answers with the 5-character report
short, below the 500-character quality threshold. -/
def envShort : Env where
  now := "t"
  fund := okAgent
  tech := okAgent
  risk := okAgent
  fundReview := fun _ => okAgent
  techReview := fun _ => okAgent
  riskReview := fun _ => okAgent
  senior := fun _ _ => Except.ok "short"

/-- A fresh state with every channel unset or empty. -/
def sBase : MState := mkState [] none [] none none (fun _ => none)

/-- A state with an empty query and an empty transcript, the configuration
in which the spec expects a MissingQueryError. -/
def sEmptyQuery : MState := mkState [] none [] none none (fun _ => none)

/-- An agent that echoes the task it was invoked with, making the task text
sent to the Analyst observable in the node's output. -/
def echoAgent : String → Except String String := fun task => Except.ok task

/-! Helper lemmas about the merge engine and the node updates. -/

theorem lww_none {α : Type} (o : Option α) : lww none o = o := rfl

theorem lww_some {α : Type} (v : α) (o : Option α) : lww (some v) o = some v := rfl

theorem getD_false_eq_true (o : Option Bool) : o.getD false = true ↔ o = some true := by
  cases o <;> simp

/-! Claim C9: commutativity of the analysis-list merge with respect to the
set of appended items, and the bare-string normalization. -/

/-- C9: merging the single-item updates of two concurrent writers in either
order yields a list containing both items (the merge is commutative with
respect to the set of appended items), and a bare incoming string is
treated as the one-element list holding it. -/
theorem add_analyses_commutative_set (a b : String) (e : Option (List String)) (s : String) :
    add_analyses (some [a]) (.list [b]) = [a, b] ∧
    add_analyses (some [b]) (.list [a]) = [b, a] ∧
    (a ∈ add_analyses (some [a]) (.list [b]) ∧ b ∈ add_analyses (some [a]) (.list [b])) ∧
    (a ∈ add_analyses (some [b]) (.list [a]) ∧ b ∈ add_analyses (some [b]) (.list [a])) ∧
    add_analyses e (.str s) = add_analyses e (.list [s]) := by
  refine ⟨rfl, rfl, ?_, ?_, rfl⟩ <;> simp [add_analyses]

/-! Claim C5: the join routing function. -/

/-- C5: check_analyses_completion routes to peer review iff the completion
map holds all three role keys with value true, and routes back into the
barrier node otherwise — exhaustively over every completion-flag mapping. -/
theorem check_analyses_completion_iff (s : MState) :
    (check_analyses_completion s = "peer_review" ↔
      (s.completion_status "fundamental" = some true ∧
       s.completion_status "technical" = some true ∧
       s.completion_status "risk" = some true)) ∧
    (check_analyses_completion s = "wait_for_analyses" ↔
      ¬(s.completion_status "fundamental" = some true ∧
        s.completion_status "technical" = some true ∧
        s.completion_status "risk" = some true)) := by
  unfold check_analyses_completion
  constructor
  · constructor
    · intro h
      by_contra hc
      simp only [getD_false_eq_true] at h
      split at h
      · exact hc (by assumption)
      · exact absurd h (by decide)
    · intro ⟨h1, h2, h3⟩
      simp [h1, h2, h3]
  · constructor
    · intro h hc
      obtain ⟨h1, h2, h3⟩ := hc
      simp [h1, h2, h3] at h
    · intro hc
      rw [if_neg]
      intro ⟨h1, h2, h3⟩
      rw [getD_false_eq_true] at h1 h2 h3
      exact hc ⟨h1, h2, h3⟩

/-! Claim C3: the Consensus Gate. -/

/-- C3: the Consensus Gate is a pure function of revisionCount and
finalReport with exactly three outcomes — cap reached keeps the counter and
forces consensus, a report longer than 500 characters keeps the counter and
reaches consensus, and otherwise consensus fails and the counter increments
by one; together with the three concrete instances of the claim. -/
theorem consensus_check_three_outcomes (s : MState) :
    (2 ≤ s.revision_count.getD 0 →
      (consensus_check_node s).consensus_reached = some true ∧
      (consensus_check_node s).revision_count = some (s.revision_count.getD 0)) ∧
    (s.revision_count.getD 0 < 2 → 500 < (s.final_report.getD "").length →
      (consensus_check_node s).consensus_reached = some true ∧
      (consensus_check_node s).revision_count = some (s.revision_count.getD 0)) ∧
    (s.revision_count.getD 0 < 2 → (s.final_report.getD "").length ≤ 500 →
      (consensus_check_node s).consensus_reached = some false ∧
      (consensus_check_node s).revision_count = some (s.revision_count.getD 0 + 1)) ∧
    ((consensus_check_node (mkState [] none [] (some 0) (some report600)
        (fun _ => none))).consensus_reached = some true ∧
     (consensus_check_node (mkState [] none [] (some 0) (some report600)
        (fun _ => none))).revision_count = some 0) ∧
    ((consensus_check_node (mkState [] none [] (some 0) (some report100)
        (fun _ => none))).consensus_reached = some false ∧
     (consensus_check_node (mkState [] none [] (some 0) (some report100)
        (fun _ => none))).revision_count = some 1) ∧
    ((consensus_check_node (mkState [] none [] (some 2) (some report100)
        (fun _ => none))).consensus_reached = some true ∧
     (consensus_check_node (mkState [] none [] (some 2) (some report100)
        (fun _ => none))).revision_count = some 2) := by
  refine ⟨?_, ?_, ?_, ?_, ?_, ?_⟩
  · intro h
    unfold consensus_check_node
    rw [if_neg (by omega)]
    exact ⟨rfl, rfl⟩
  · intro h hl
    unfold consensus_check_node
    rw [if_pos h, if_pos hl]
    exact ⟨rfl, rfl⟩
  · intro h hl
    unfold consensus_check_node
    rw [if_pos h, if_neg (by omega)]
    exact ⟨rfl, rfl⟩
  · constructor <;> decide
  · constructor <;> decide
  · constructor <;> decide

/-- Witness for C3 at concrete inputs: the cap hypothesis and the two
branch hypotheses are each discharged on explicit states. -/
theorem consensus_check_three_outcomes_witness :
    (consensus_check_node (mkState [] none [] (some 2) (some report100)
        (fun _ => none))).consensus_reached = some true ∧
    (consensus_check_node (mkState [] none [] (some 0) (some report600)
        (fun _ => none))).consensus_reached = some true ∧
    (consensus_check_node (mkState [] none [] (some 0) (some report100)
        (fun _ => none))).consensus_reached = some false := by
  refine ⟨?_, ?_, ?_⟩
  · exact ((consensus_check_three_outcomes (mkState [] none [] (some 2) (some report100)
      (fun _ => none))).1 (by decide)).1
  · exact (((consensus_check_three_outcomes (mkState [] none [] (some 0) (some report600)
      (fun _ => none))).2.1 (by decide) (by decide)).1)
  · exact (((consensus_check_three_outcomes (mkState [] none [] (some 0) (some report100)
      (fun _ => none))).2.2.1 (by decide) (by decide)).1)

/-! Claim C8: the Peer Review short circuit on an empty analysis log. -/

/-- C8: on an empty analysis log peer_review_node performs zero Analyst
invocations and returns exactly the fixed placeholder message and the stage
advance — no feedback record and no other write. -/
theorem peer_review_empty_short_circuit (now : String)
    (fa ta ra : String → Except String String) (s : MState) (h : s.analyses = []) :
    peer_review_node now fa ta ra s =
      ({ messages := [.ai "【同行评议】没有分析结果可供评议"],
         workflow_stage := some "peer_review_completed" }, []) := by
  unfold peer_review_node
  rw [h]
  rfl

/-- Witness for C8: the initial state has an empty analysis log and the
short circuit fires on it. -/
theorem peer_review_empty_short_circuit_witness :
    (initState "q").analyses = [] ∧
    peer_review_node "t" okAgent okAgent okAgent (initState "q") =
      ({ messages := [.ai "【同行评议】没有分析结果可供评议"],
         workflow_stage := some "peer_review_completed" }, []) :=
  ⟨rfl, peer_review_empty_short_circuit "t" okAgent okAgent okAgent (initState "q") rfl⟩

/-! Claim C10: the constant fields of every feedback record. -/

/-- C10: every feedback record the Peer Review stage ever writes has
agent_name peer_review, feedback_type critique, confidence_score 0.8 and
the fixed one-element improvement list, independently of the inputs and of
the reviewers' success or failure; in particular the confidence score lies
in the unit interval. -/
theorem feedback_record_constant_fields (now : String)
    (fa ta ra : String → Except String String) (s : MState) (fb : AgentFeedback)
    (h : fb ∈ ((peer_review_node now fa ta ra s).1.agent_feedbacks.getD [])) :
    fb.agent_name = "peer_review" ∧ fb.feedback_type = "critique" ∧
    fb.confidence_score = (0.8 : ℚ) ∧
    fb.suggested_improvements = ["基于评议结果优化分析"] ∧
    0 ≤ fb.confidence_score ∧ fb.confidence_score ≤ 1 := by
  simp only [peer_review_node] at h
  split at h
  · simp at h
  · simp only [Option.getD_some, List.mem_singleton] at h
    subst h
    refine ⟨rfl, rfl, rfl, rfl, by norm_num, by norm_num⟩

/-- Witness for C10: the concrete record produced on a one-entry analysis
log with all reviewers succeeding. -/
theorem feedback_record_constant_fields_witness :
    sampleFeedback ∈ ((peer_review_node "t" okAgent okAgent okAgent
        sampleReviewState).1.agent_feedbacks.getD []) ∧
    sampleFeedback.agent_name = "peer_review" ∧ sampleFeedback.feedback_type = "critique" ∧
    sampleFeedback.confidence_score = (0.8 : ℚ) ∧
    sampleFeedback.suggested_improvements = ["基于评议结果优化分析"] ∧
    0 ≤ sampleFeedback.confidence_score ∧ sampleFeedback.confidence_score ≤ 1 := by
  have h : sampleFeedback ∈ ((peer_review_node "t" okAgent okAgent okAgent
      sampleReviewState).1.agent_feedbacks.getD []) := by
    rw [show (peer_review_node "t" okAgent okAgent okAgent
      sampleReviewState).1.agent_feedbacks = some [sampleFeedback] from rfl]
    simp
  exact ⟨h, feedback_record_constant_fields "t" okAgent okAgent okAgent
    sampleReviewState sampleFeedback h⟩

/-! Claim C6: number of feedback records appended by Peer Review. -/

/-- Counterexample to C6: on a non-empty analysis log the Peer Review stage
writes exactly one feedback record, not three. -/
theorem peer_review_one_record_not_three :
    ((peer_review_node "t" okAgent okAgent okAgent
        sampleReviewState).1.agent_feedbacks.getD []).length = 1 ∧
    ((peer_review_node "t" okAgent okAgent okAgent
        sampleReviewState).1.agent_feedbacks.getD []).length ≠ 3 := by
  constructor
  · rfl
  · intro h
    rw [show ((peer_review_node "t" okAgent okAgent okAgent
      sampleReviewState).1.agent_feedbacks.getD []).length = 1 from rfl] at h
    exact absurd h (by decide)

/-- C6 as amended: when the joined analysis log text is non-empty, the Peer
Review stage performs the three review invocations but writes a single
feedback record whose content aggregates the three roles' outputs, each
taken from that role's review reply or from the fixed placeholder when the
invocation raised. -/
theorem peer_review_single_aggregated_record (now : String)
    (fa ta ra : String → Except String String) (s : MState)
    (h : String.intercalate "\n\n" s.analyses ≠ "") :
    (peer_review_node now fa ta ra s).1.agent_feedbacks =
      some [{ agent_name := "peer_review", feedback_type := "critique",
              feedback_content := format_review_output now
                [fundamental_review_text fa (String.intercalate "\n\n" s.analyses),
                 technical_review_text ta (String.intercalate "\n\n" s.analyses),
                 risk_review_text ra (String.intercalate "\n\n" s.analyses)],
              confidence_score := (0.8 : ℚ),
              suggested_improvements := ["基于评议结果优化分析"] }] ∧
    (peer_review_node now fa ta ra s).2.length = 3 := by
  simp only [peer_review_node]
  rw [if_neg h]
  exact ⟨rfl, rfl⟩

/-- Witness for C6 as amended, on the one-entry analysis log. -/
theorem peer_review_single_aggregated_record_witness :
    String.intercalate "\n\n" sampleReviewState.analyses ≠ "" ∧
    (peer_review_node "t" okAgent okAgent okAgent sampleReviewState).1.agent_feedbacks =
      some [sampleFeedback] := by
  refine ⟨by decide, ?_⟩
  have h := peer_review_single_aggregated_record "t" okAgent okAgent okAgent
    sampleReviewState (by decide)
  exact h.1

/-! Claim C4: synthesis always marks consensus, and what that implies for
the routing. -/

/-- Counterexample to C4: after a synthesis run that produced a short
report, the Consensus Gate recomputes consensusReached and the routing
takes the revise branch back to peer review — so the claim's conclusion
that the revise branch is never taken via the synthesis path is false. -/
theorem revise_branch_taken_after_synthesis :
    (step envShort 1 (step envShort 0 (GNode.synthesis, sBase))).1 = GNode.peerReview := by
  rfl

/-- C4 as amended: the Synthesis stage sets consensusReached to true and
writes finalReport in both its branches, but the subsequent Consensus Gate
overwrites consensusReached from revisionCount and finalReport, so the
revise branch is taken after synthesis exactly when the revision cap is not
reached and the report is at most 500 characters. -/
theorem synthesis_consensus_and_gate_override (now : String)
    (senior : String → Except String String) (s s' : MState) :
    ((senior_synthesis_node now senior s).consensus_reached = some true ∧
      ∃ r, (senior_synthesis_node now senior s).final_report = some r) ∧
    (check_consensus_routing (applyUpdate s' (consensus_check_node s')) = "peer_review" ↔
      (s'.revision_count.getD 0 < 2 ∧ (s'.final_report.getD "").length ≤ 500)) := by
  constructor
  · cases h : senior (synthesis_task (String.intercalate "\n\n" (aiContents s.messages))) with
    | ok c =>
        refine ⟨?_, c, ?_⟩ <;> simp [senior_synthesis_node, h]
    | error e =>
        refine ⟨?_, "综合分析失败: " ++ e, ?_⟩ <;> simp [senior_synthesis_node, h]
  · unfold consensus_check_node check_consensus_routing applyUpdate
    by_cases h1 : s'.revision_count.getD 0 < 2
    · rw [if_pos h1]
      by_cases h2 : 500 < (s'.final_report.getD "").length
      · rw [if_pos h2]
        simp only [lww_some, Option.getD_some, if_true]
        constructor
        · intro h
          exact absurd h (by decide)
        · intro ⟨_, hc⟩
          omega
      · rw [if_neg h2]
        simp only [lww_some, Option.getD_some, Bool.false_eq_true, if_false]
        constructor
        · intro _
          exact ⟨h1, by omega⟩
        · intro _
          trivial
    · rw [if_neg h1]
      simp only [lww_some, Option.getD_some, if_true]
      constructor
      · intro h
        exact absurd h (by decide)
      · intro ⟨hc, _⟩
        omega

/-- Witness for C4 as amended at concrete inputs: synthesis with a failing
senior agent still marks consensus, and the gate-override equivalence is
instantiated on a state with a short report. -/
theorem synthesis_consensus_and_gate_override_witness :
    (senior_synthesis_node "t" errAgent sBase).consensus_reached = some true ∧
    check_consensus_routing (applyUpdate (mkState [] none [] (some 0) (some "short")
      (fun _ => none)) (consensus_check_node (mkState [] none [] (some 0) (some "short")
      (fun _ => none)))) = "peer_review" := by
  refine ⟨(synthesis_consensus_and_gate_override "t" errAgent sBase sBase).1.1, ?_⟩
  exact (synthesis_consensus_and_gate_override "t" errAgent sBase
    (mkState [] none [] (some 0) (some "short") (fun _ => none))).2.mpr
    (by constructor <;> decide)

/-! Claim C7: missing-query behaviour of the Task Executors. -/

/-- Counterexample to C7: with both the originalQuery field and the
transcript empty, the executor does not fail — it invokes the Analyst with
the role task built from the empty query (made observable by the echoing
agent) and completes normally, setting its completion flag; no
MissingQueryError exists in the code. -/
theorem missing_query_no_failure :
    (fundamental_analysis_node "t" echoAgent sEmptyQuery).completion_status =
      some (singleFlag "fundamental" true) ∧
    (fundamental_analysis_node "t" echoAgent sEmptyQuery).analyses =
      some ["基本面分析: 请对以下投资标的进行深入的基本面分析: "] :=
  ⟨rfl, rfl⟩

/-- C7 as amended: the executor never fails for a missing query.  When
originalQuery is non-empty it is used; when it is empty and the transcript
is non-empty the first message's content is used; when both are empty the
executor proceeds with the empty query.  In every case each executor node
returns an update writing its role's completion flag. -/
theorem executor_query_fallback :
    (∀ s : MState, s.original_query.getD "" ≠ "" →
      get_node_query s = s.original_query.getD "") ∧
    (∀ (s : MState) (m : Message) (ms : List Message), s.original_query.getD "" = "" →
      s.messages = m :: ms → get_node_query s = m.content) ∧
    (∀ s : MState, s.original_query.getD "" = "" → s.messages = [] →
      get_node_query s = "") ∧
    (∀ (now : String) (agent : String → Except String String) (s : MState),
      ∃ b, (fundamental_analysis_node now agent s).completion_status =
        some (singleFlag "fundamental" b)) ∧
    (∀ (now : String) (agent : String → Except String String) (s : MState),
      ∃ b, (technical_analysis_node now agent s).completion_status =
        some (singleFlag "technical" b)) ∧
    (∀ (now : String) (agent : String → Except String String) (s : MState),
      ∃ b, (risk_analysis_node now agent s).completion_status =
        some (singleFlag "risk" b)) := by
  refine ⟨?_, ?_, ?_, ?_, ?_, ?_⟩
  · intro s h
    unfold get_node_query
    rw [if_neg h]
  · intro s m ms h hm
    unfold get_node_query
    rw [if_pos h, hm]
  · intro s h hm
    unfold get_node_query
    rw [if_pos h, hm]
    exact h
  · intro now agent s
    cases h : agent ("请对以下投资标的进行深入的基本面分析: " ++ get_node_query s) with
    | ok c =>
        exact ⟨true, by simp [fundamental_analysis_node, analysis_node_core, h]⟩
    | error e =>
        exact ⟨false, by simp [fundamental_analysis_node, analysis_node_core, h]⟩
  · intro now agent s
    cases h : agent ("请对以下投资标的进行专业的技术面分析: " ++ get_node_query s) with
    | ok c =>
        exact ⟨true, by simp [technical_analysis_node, analysis_node_core, h]⟩
    | error e =>
        exact ⟨false, by simp [technical_analysis_node, analysis_node_core, h]⟩
  · intro now agent s
    cases h : agent ("请对以下投资标的进行全面的风险评估: " ++ get_node_query s) with
    | ok c =>
        exact ⟨true, by simp [risk_analysis_node, analysis_node_core, h]⟩
    | error e =>
        exact ⟨false, by simp [risk_analysis_node, analysis_node_core, h]⟩

/-- Witness for C7 as amended: the fallback to the first transcript message
and the always-written completion flag, at concrete inputs. -/
theorem executor_query_fallback_witness :
    get_node_query (mkState [.human "hello"] none [] none none (fun _ => none)) = "hello" ∧
    get_node_query sEmptyQuery = "" ∧
    ∃ b, (fundamental_analysis_node "t" okAgent sEmptyQuery).completion_status =
      some (singleFlag "fundamental" b) := by
  refine ⟨?_, ?_, ?_⟩
  · exact executor_query_fallback.2.1 (mkState [.human "hello"] none [] none none
      (fun _ => none)) (.human "hello") [] rfl rfl
  · exact executor_query_fallback.2.2.1 sEmptyQuery rfl rfl
  · exact executor_query_fallback.2.2.2.1 "t" okAgent sEmptyQuery

/-! Claim C1: the completion flag written by a failing executor. -/

/-- C1, evaluated at the failing input: when an executor's Analyst
invocation raises, the node appends the failure-tagged analysis entry as
the spec says, but writes completionFlags of the role as false rather than
true, and the join routing consequently stays in the barrier (the workflow
is stuck at wait_for_analyses). -/
theorem executor_failure_flag_false :
    (fundamental_analysis_node "t" errAgent (initState "q")).analyses =
      some ["基本面分析: 分析失败 - boom"] ∧
    (fundamental_analysis_node "t" errAgent (initState "q")).completion_status =
      some (singleFlag "fundamental" false) ∧
    (technical_analysis_node "t" errAgent (initState "q")).analyses =
      some ["技术分析: 分析失败 - boom"] ∧
    (technical_analysis_node "t" errAgent (initState "q")).completion_status =
      some (singleFlag "technical" false) ∧
    (risk_analysis_node "t" errAgent (initState "q")).analyses =
      some ["风险分析: 分析失败 - boom"] ∧
    (risk_analysis_node "t" errAgent (initState "q")).completion_status =
      some (singleFlag "risk" false) ∧
    check_analyses_completion (run envBug 2 (initConfig "q")).2 = "wait_for_analyses" ∧
    (run envBug 3 (initConfig "q")).1 = GNode.waitNode := by
  exact ⟨rfl, rfl, rfl, rfl, rfl, rfl, rfl, rfl⟩

/-! Claim C2: infrastructure lemmas about the graph step function. -/

theorem step_waitNode_eq (env : Env) (n : Nat) (s : MState) :
    step env n (GNode.waitNode, s) =
      (if check_analyses_completion (applyUpdate s (wait_for_analyses_node s)) = "peer_review"
       then (GNode.peerReview, applyUpdate s (wait_for_analyses_node s))
       else (GNode.waitNode, applyUpdate s (wait_for_analyses_node s))) := rfl

theorem step_consensus_eq (env : Env) (n : Nat) (s : MState) :
    step env n (GNode.consensus, s) =
      (if check_consensus_routing (applyUpdate s (consensus_check_node s)) = "peer_review"
       then (GNode.peerReview, applyUpdate s (consensus_check_node s))
       else (GNode.terminal, applyUpdate s (consensus_check_node s))) := rfl

theorem runFrom_add (env : Env) (m1 : Nat) : ∀ (m2 n : Nat) (c : Config),
    runFrom env n (m1 + m2) c = runFrom env (n + m1) m2 (runFrom env n m1 c) := by
  induction m1 with
  | zero =>
      intro m2 n c
      rw [Nat.zero_add, Nat.add_zero]
      rfl
  | succ m1 ih =>
      intro m2 n c
      rw [Nat.succ_add]
      show runFrom env (n + 1) (m1 + m2) (step env n c) = _
      rw [ih m2 (n + 1) (step env n c)]
      have h : n + 1 + m1 = n + (m1 + 1) := by omega
      rw [h]
      rfl

theorem run_succ (env : Env) (m : Nat) (c : Config) :
    run env (m + 1) c = step env m (run env m c) := by
  show runFrom env 0 (m + 1) c = _
  rw [runFrom_add env m 1 0 c, Nat.zero_add]
  rfl

theorem wait_for_analyses_node_control (s : MState) :
    (wait_for_analyses_node s).completion_status = none ∧
    (wait_for_analyses_node s).revision_count = none ∧
    (wait_for_analyses_node s).consensus_reached = none ∧
    (wait_for_analyses_node s).final_report = none := by
  simp only [wait_for_analyses_node]
  split <;> exact ⟨rfl, rfl, rfl, rfl⟩

theorem check_analyses_completion_not_ready (s : MState)
    (h : s.completion_status "fundamental" = some false) :
    check_analyses_completion s = "wait_for_analyses" := by
  unfold check_analyses_completion
  rw [if_neg]
  intro hc
  obtain ⟨h1, _, _⟩ := hc
  rw [h] at h1
  simp at h1

theorem check_analyses_completion_ready (s : MState)
    (h1 : s.completion_status "fundamental" = some true)
    (h2 : s.completion_status "technical" = some true)
    (h3 : s.completion_status "risk" = some true) :
    check_analyses_completion s = "peer_review" := by
  unfold check_analyses_completion
  rw [if_pos]
  exact ⟨by simp [h1], by simp [h2], by simp [h3]⟩

theorem step_waitNode_stuck (env : Env) (n : Nat) (s : MState)
    (h : s.completion_status "fundamental" = some false) :
    (step env n (GNode.waitNode, s)).1 = GNode.waitNode ∧
    (step env n (GNode.waitNode, s)).2.completion_status = s.completion_status := by
  have hcs : (applyUpdate s (wait_for_analyses_node s)).completion_status =
      s.completion_status := by
    show (match (wait_for_analyses_node s).completion_status with
      | none => s.completion_status
      | some m => add_completion_status (some s.completion_status) m) = s.completion_status
    rw [(wait_for_analyses_node_control s).1]
  have hroute : check_analyses_completion (applyUpdate s (wait_for_analyses_node s)) =
      "wait_for_analyses" := by
    apply check_analyses_completion_not_ready
    rw [hcs]
    exact h
  rw [step_waitNode_eq, if_neg (by rw [hroute]; decide)]
  exact ⟨rfl, hcs⟩

theorem envBug_stuck_at_barrier : ∀ k : Nat,
    (run envBug (k + 2) (initConfig "q")).1 = GNode.waitNode ∧
    (run envBug (k + 2) (initConfig "q")).2.completion_status "fundamental" = some false := by
  intro k
  induction k with
  | zero => exact ⟨rfl, rfl⟩
  | succ k ih =>
      obtain ⟨h1, h2⟩ := ih
      have hc : run envBug (k + 2) (initConfig "q") =
          (GNode.waitNode, (run envBug (k + 2) (initConfig "q")).2) := by
        rw [← h1]
        rfl
      have hstep := step_waitNode_stuck envBug (k + 2)
        ((run envBug (k + 2) (initConfig "q")).2) h2
      have hr : run envBug (k + 1 + 2) (initConfig "q") =
          step envBug (k + 2) (run envBug (k + 2) (initConfig "q")) :=
        run_succ envBug (k + 2) (initConfig "q")
      constructor
      · rw [hr, hc]
        exact hstep.1
      · rw [hr, hc, hstep.2]
        exact h2

/-- Counterexample to C2: in the environment where the fundamental
executor's Analyst invocation raises, the workflow never reaches its
terminal node — the failing executor writes its completion flag false and
the join barrier's self-loop repeats forever. -/
theorem workflow_stuck_on_executor_failure : ¬ terminates envBug "q" := by
  intro ht
  obtain ⟨n, hn⟩ := ht
  match n, hn with
  | 0, hn => exact absurd hn (by decide)
  | 1, hn => exact absurd hn (by decide)
  | (k + 2), hn =>
      rw [(envBug_stuck_at_barrier k).1] at hn
      exact GNode.noConfusion hn

/-! Claim C2: termination of the workflow when every executor succeeds. -/

theorem applyUpdate_revision_count (s : MState) (u : Update) :
    (applyUpdate s u).revision_count = lww u.revision_count s.revision_count := rfl

theorem applyUpdate_consensus_reached (s : MState) (u : Update) :
    (applyUpdate s u).consensus_reached = lww u.consensus_reached s.consensus_reached := rfl

theorem applyUpdate_final_report (s : MState) (u : Update) :
    (applyUpdate s u).final_report = lww u.final_report s.final_report := rfl

theorem applyUpdate_cs_none (s : MState) (u : Update) (h : u.completion_status = none) :
    (applyUpdate s u).completion_status = s.completion_status := by
  show (match u.completion_status with
    | none => s.completion_status
    | some m => add_completion_status (some s.completion_status) m) = s.completion_status
  rw [h]

theorem coordinator_node_rc (now : String) (s : MState) :
    (coordinator_node now s).revision_count = none := rfl

theorem initState_rc (q : String) : (initState q).revision_count = none := rfl

theorem analysis_core_ctl (now th ti an tag rk : String)
    (agent : String → Except String String) (s : MState) :
    (analysis_node_core now th ti an tag rk agent s).revision_count = none ∧
    (analysis_node_core now th ti an tag rk agent s).consensus_reached = none ∧
    (analysis_node_core now th ti an tag rk agent s).final_report = none := by
  cases h : agent (th ++ get_node_query s) <;>
    refine ⟨?_, ?_, ?_⟩ <;> simp [analysis_node_core, h]

theorem analysis_core_flag_ok (now th ti an tag rk : String)
    (agent : String → Except String String) (s : MState) (c : String)
    (h : agent (th ++ get_node_query s) = Except.ok c) :
    (analysis_node_core now th ti an tag rk agent s).completion_status =
      some (singleFlag rk true) := by
  simp [analysis_node_core, h]

theorem merged_flags (s1 : MState) (u1 u2 u3 : Update)
    (h1 : u1.completion_status = some (singleFlag "fundamental" true))
    (h2 : u2.completion_status = some (singleFlag "technical" true))
    (h3 : u3.completion_status = some (singleFlag "risk" true)) :
    (applyUpdate (applyUpdate (applyUpdate s1 u1) u2) u3).completion_status
      "fundamental" = some true ∧
    (applyUpdate (applyUpdate (applyUpdate s1 u1) u2) u3).completion_status
      "technical" = some true ∧
    (applyUpdate (applyUpdate (applyUpdate s1 u1) u2) u3).completion_status
      "risk" = some true := by
  refine ⟨?_, ?_, ?_⟩ <;> simp [applyUpdate, h1, h2, h3, add_completion_status, singleFlag]

theorem peer_update_ctl (now : String) (fa ta ra : String → Except String String)
    (s : MState) :
    (peer_review_node now fa ta ra s).1.revision_count = none ∧
    (peer_review_node now fa ta ra s).1.consensus_reached = none ∧
    (peer_review_node now fa ta ra s).1.final_report = none := by
  simp only [peer_review_node]
  split <;> exact ⟨rfl, rfl, rfl⟩

theorem synth_update_ctl (now : String) (g : String → Except String String) (s : MState) :
    (senior_synthesis_node now g s).revision_count = none ∧
    (senior_synthesis_node now g s).consensus_reached = some true ∧
    ∃ r, (senior_synthesis_node now g s).final_report = some r := by
  cases h : g (synthesis_task (String.intercalate "\n\n" (aiContents s.messages))) with
  | ok c =>
      refine ⟨?_, ?_, c, ?_⟩ <;> simp [senior_synthesis_node, h]
  | error e =>
      refine ⟨?_, ?_, "综合分析失败: " ++ e, ?_⟩ <;> simp [senior_synthesis_node, h]

theorem consensus_update_cap (s : MState) (h : 2 ≤ s.revision_count.getD 0) :
    consensus_check_node s =
      { consensus_reached := some true, revision_count := some (s.revision_count.getD 0),
        workflow_stage := some "consensus_checked" } := by
  unfold consensus_check_node
  rw [if_neg (by omega)]

theorem consensus_update_quality (s : MState) (h1 : s.revision_count.getD 0 < 2)
    (h2 : 500 < (s.final_report.getD "").length) :
    consensus_check_node s =
      { consensus_reached := some true, revision_count := some (s.revision_count.getD 0),
        workflow_stage := some "consensus_checked" } := by
  unfold consensus_check_node
  rw [if_pos h1, if_pos h2]

theorem consensus_update_revise (s : MState) (h1 : s.revision_count.getD 0 < 2)
    (h2 : ¬500 < (s.final_report.getD "").length) :
    consensus_check_node s =
      { consensus_reached := some false,
        revision_count := some (s.revision_count.getD 0 + 1),
        workflow_stage := some "consensus_checked" } := by
  unfold consensus_check_node
  rw [if_pos h1, if_neg h2]

theorem step_consensus_terminal (env : Env) (n : Nat) (s : MState)
    (h : (consensus_check_node s).consensus_reached = some true) :
    (step env n (GNode.consensus, s)).1 = GNode.terminal := by
  have hroute : check_consensus_routing (applyUpdate s (consensus_check_node s)) = END := by
    simp [check_consensus_routing, applyUpdate, lww, h]
  rw [step_consensus_eq, if_neg (by rw [hroute]; decide)]

theorem step_consensus_revise (env : Env) (n : Nat) (s : MState)
    (h1 : s.revision_count.getD 0 < 2) (h2 : ¬500 < (s.final_report.getD "").length) :
    step env n (GNode.consensus, s) =
      (GNode.peerReview, applyUpdate s (consensus_check_node s)) ∧
    (applyUpdate s (consensus_check_node s)).revision_count =
      some (s.revision_count.getD 0 + 1) := by
  have hu := consensus_update_revise s h1 h2
  constructor
  · rw [step_consensus_eq, if_pos]
    simp [check_consensus_routing, applyUpdate, lww, hu]
  · simp [applyUpdate, lww, hu]

theorem peer_synth_steps (env : Env) (n : Nat) (s : MState) :
    runFrom env n 2 (GNode.peerReview, s) =
      (GNode.consensus,
       applyUpdate
         (applyUpdate s (peer_review_node env.now (env.fundReview n) (env.techReview n)
           (env.riskReview n) s).1)
         (senior_synthesis_node env.now (env.senior (n + 1))
           (applyUpdate s (peer_review_node env.now (env.fundReview n) (env.techReview n)
             (env.riskReview n) s).1))) := rfl

theorem loop_body (env : Env) (n : Nat) (s : MState) :
    ∃ s3 r, runFrom env n 2 (GNode.peerReview, s) = (GNode.consensus, s3) ∧
      s3.revision_count = s.revision_count ∧ s3.final_report = some r := by
  obtain ⟨hrc, _, r, hfr⟩ := synth_update_ctl env.now (env.senior (n + 1))
    (applyUpdate s (peer_review_node env.now (env.fundReview n) (env.techReview n)
      (env.riskReview n) s).1)
  refine ⟨_, r, peer_synth_steps env n s, ?_, ?_⟩
  · rw [applyUpdate_revision_count, hrc]
    show (applyUpdate s (peer_review_node env.now (env.fundReview n) (env.techReview n)
      (env.riskReview n) s).1).revision_count = s.revision_count
    rw [applyUpdate_revision_count,
      (peer_update_ctl env.now (env.fundReview n) (env.techReview n) (env.riskReview n) s).1]
    rfl
  · rw [applyUpdate_final_report, hfr]
    rfl

theorem revision_loop_terminates (env : Env) : ∀ (k n : Nat) (s : MState),
    2 - s.revision_count.getD 0 ≤ k →
    ∃ m, m ≤ 3 * k + 3 ∧ (runFrom env n m (GNode.peerReview, s)).1 = GNode.terminal := by
  intro k
  induction k with
  | zero =>
      intro n s hk
      obtain ⟨s3, r, hbody, hrc, hfr⟩ := loop_body env n s
      have h3 : runFrom env n 3 (GNode.peerReview, s) = step env (n + 2) (GNode.consensus, s3) := by
        rw [show (3 : Nat) = 2 + 1 from rfl, runFrom_add env 2 1 n _, hbody]
        rfl
      refine ⟨3, by omega, ?_⟩
      rw [h3]
      apply step_consensus_terminal
      rw [consensus_update_cap s3 (by rw [hrc]; omega)]
  | succ k ih =>
      intro n s hk
      obtain ⟨s3, r, hbody, hrc, hfr⟩ := loop_body env n s
      have h3 : runFrom env n 3 (GNode.peerReview, s) = step env (n + 2) (GNode.consensus, s3) := by
        rw [show (3 : Nat) = 2 + 1 from rfl, runFrom_add env 2 1 n _, hbody]
        rfl
      by_cases hcap : 2 ≤ s3.revision_count.getD 0
      · refine ⟨3, by omega, ?_⟩
        rw [h3]
        apply step_consensus_terminal
        rw [consensus_update_cap s3 hcap]
      · by_cases hlen : 500 < (s3.final_report.getD "").length
        · refine ⟨3, by omega, ?_⟩
          rw [h3]
          apply step_consensus_terminal
          rw [consensus_update_quality s3 (by omega) hlen]
        · obtain ⟨hstep, hrc4⟩ := step_consensus_revise env (n + 2) s3 (by omega) hlen
          obtain ⟨m, hm, hterm⟩ := ih (n + 3) (applyUpdate s3 (consensus_check_node s3))
            (by rw [hrc4]; simp; rw [hrc]; omega)
          refine ⟨3 + m, by omega, ?_⟩
          rw [runFrom_add env 3 m n _, show runFrom env n 3 (GNode.peerReview, s) =
            (GNode.peerReview, applyUpdate s3 (consensus_check_node s3)) from by
              rw [h3, hstep]]
          exact hterm

/-- C2 as amended: whenever all three executors' Analyst invocations
succeed, the workflow reaches its terminal node within 12 supersteps — the
join barrier exits on its first evaluation, and the bounded revision
counter lets the Peer Review, Synthesis, Consensus Gate cycle run at most
three times. -/
theorem workflow_terminates_on_success (env : Env) (q : String)
    (hf : ∀ t, ∃ c, env.fund t = Except.ok c)
    (ht : ∀ t, ∃ c, env.tech t = Except.ok c)
    (hr : ∀ t, ∃ c, env.risk t = Except.ok c) :
    ∃ n, n ≤ 12 ∧ (run env n (initConfig q)).1 = GNode.terminal := by
  obtain ⟨c1, hc1⟩ := hf ("请对以下投资标的进行深入的基本面分析: " ++
    get_node_query (applyUpdate (initState q) (coordinator_node env.now (initState q))))
  obtain ⟨c2, hc2⟩ := ht ("请对以下投资标的进行专业的技术面分析: " ++
    get_node_query (applyUpdate (initState q) (coordinator_node env.now (initState q))))
  obtain ⟨c3, hc3⟩ := hr ("请对以下投资标的进行全面的风险评估: " ++
    get_node_query (applyUpdate (initState q) (coordinator_node env.now (initState q))))
  set s1 := applyUpdate (initState q) (coordinator_node env.now (initState q)) with hs1
  set u1 := fundamental_analysis_node env.now env.fund s1 with hu1
  set u2 := technical_analysis_node env.now env.tech s1 with hu2
  set u3 := risk_analysis_node env.now env.risk s1 with hu3
  set s2 := applyUpdate (applyUpdate (applyUpdate s1 u1) u2) u3 with hs2
  have h1flag : u1.completion_status = some (singleFlag "fundamental" true) :=
    analysis_core_flag_ok env.now _ _ _ _ _ env.fund s1 c1 hc1
  have h2flag : u2.completion_status = some (singleFlag "technical" true) :=
    analysis_core_flag_ok env.now _ _ _ _ _ env.tech s1 c2 hc2
  have h3flag : u3.completion_status = some (singleFlag "risk" true) :=
    analysis_core_flag_ok env.now _ _ _ _ _ env.risk s1 c3 hc3
  have hflags := merged_flags s1 u1 u2 u3 h1flag h2flag h3flag
  have hwaitcs : (applyUpdate s2 (wait_for_analyses_node s2)).completion_status =
      s2.completion_status :=
    applyUpdate_cs_none s2 _ (wait_for_analyses_node_control s2).1
  have hroute : check_analyses_completion (applyUpdate s2 (wait_for_analyses_node s2)) =
      "peer_review" := by
    apply check_analyses_completion_ready
    · rw [hwaitcs]; exact hflags.1
    · rw [hwaitcs]; exact hflags.2.1
    · rw [hwaitcs]; exact hflags.2.2
  have e0 : run env 3 (initConfig q) =
      (GNode.peerReview, applyUpdate s2 (wait_for_analyses_node s2)) := by
    have r3 : run env 3 (initConfig q) = step env 2 (step env 1 (step env 0 (initConfig q))) := rfl
    have e1 : step env 0 (initConfig q) = (GNode.fanout, s1) := rfl
    have e2 : step env 1 (GNode.fanout, s1) = (GNode.waitNode, s2) := rfl
    rw [r3, e1, e2, step_waitNode_eq, if_pos hroute]
  set s3 := applyUpdate s2 (wait_for_analyses_node s2) with hs3
  have hu1rc : u1.revision_count = none :=
    (analysis_core_ctl env.now _ _ _ _ _ env.fund s1).1
  have hu2rc : u2.revision_count = none :=
    (analysis_core_ctl env.now _ _ _ _ _ env.tech s1).1
  have hu3rc : u3.revision_count = none :=
    (analysis_core_ctl env.now _ _ _ _ _ env.risk s1).1
  have hs3rc : s3.revision_count = none := by
    rw [hs3, applyUpdate_revision_count, (wait_for_analyses_node_control s2).2.1, hs2,
      applyUpdate_revision_count, hu3rc, applyUpdate_revision_count, hu2rc,
      applyUpdate_revision_count, hu1rc, hs1, applyUpdate_revision_count,
      coordinator_node_rc, initState_rc]
    rfl
  obtain ⟨m, hm, hterm⟩ := revision_loop_terminates env 2 3 s3 (by rw [hs3rc]; simp)
  refine ⟨3 + m, by omega, ?_⟩
  have hsplit : run env (3 + m) (initConfig q) =
      runFrom env (0 + 3) m (runFrom env 0 3 (initConfig q)) :=
    runFrom_add env 3 m 0 (initConfig q)
  rw [hsplit, show runFrom env 0 3 (initConfig q) = (GNode.peerReview, s3) from e0]
  exact hterm

/-- Witness for C2 as amended: in the all-success environment the workflow
terminates within 12 supersteps. -/
theorem workflow_terminates_on_success_witness :
    ∃ n, n ≤ 12 ∧ (run envOk n (initConfig "q")).1 = GNode.terminal :=
  workflow_terminates_on_success envOk "q" (fun _ => ⟨"x", rfl⟩)
    (fun _ => ⟨"x", rfl⟩) (fun _ => ⟨"x", rfl⟩)

end MultiAgent
